import Mathlib

/-
Shallow embedding of two waste-collection source plugins:
  * `lbbd_gov_uk.py`   — London Borough of Barking and Dagenham (JSON API)
  * `woollahra_nsw_gov_au.py` — Woollahra Municipal Council (address search,
    retry helper, HTML result blocks)
Pure Lean definitions mirror the Python source; network effects are modelled
by passing the sequence of upstream responses explicitly, and raised Python
exceptions are modelled as `Except.error` carrying the exception message.
String manipulation is carried out on `List Char` so that every definition
reduces by structural recursion.
-/

/-- A calendar date (what Python `datetime.date` carries). -/
structure Date where
  year : Nat
  month : Nat
  day : Nat
deriving DecidableEq, Repr

/-- The shared output record `Collection(date=…, t=…, icon=…)` of the
aggregator framework: a date, a waste-type label, and an optional icon. -/
structure Collection where
  date : Date
  waste_type : String
  icon : Option String
deriving DecidableEq, Repr

/-- Split a character list at every occurrence of the separator `c`
(Python `str.split(sep)` semantics: adjacent separators yield empty parts). -/
def splitOnChar (c : Char) : List Char → List (List Char)
  | [] => [[]]
  | x :: xs =>
    if x == c then [] :: splitOnChar c xs
    else
      match splitOnChar c xs with
      | [] => [[x]]
      | t :: ts => (x :: t) :: ts

/-- Whitespace characters removed by Python `str.strip()`. -/
def isPyWhitespace (c : Char) : Bool :=
  c == ' ' || c == '\t' || c == '\n' || c == '\r'

/-- Remove leading whitespace. -/
def dropLeadingWs : List Char → List Char
  | [] => []
  | c :: cs => if isPyWhitespace c then dropLeadingWs cs else c :: cs

/-- Python `str.strip()` on a character list. -/
def stripChars (cs : List Char) : List Char :=
  (dropLeadingWs (dropLeadingWs cs.reverse).reverse)

/-- Python `str.strip()`. -/
def pyStrip (s : String) : String :=
  ⟨stripChars s.toList⟩

/-- Lower-case a character list (Python `str.lower()` on ASCII input). -/
def lowerChars (cs : List Char) : List Char :=
  cs.map Char.toLower

/-- `p` is a prefix of the second list. -/
def isPrefixList : List Char → List Char → Bool
  | [], _ => true
  | _ :: _, [] => false
  | a :: as, b :: bs => a == b && isPrefixList as bs

/-- Python `p in s` substring containment, on character lists. -/
def containsSub (p : List Char) : List Char → Bool
  | [] => p.isEmpty
  | c :: cs => isPrefixList p (c :: cs) || containsSub p cs

/-- Numeric value of an ASCII digit. -/
def digitVal (c : Char) : Option Nat :=
  if '0' ≤ c && c ≤ '9' then some (c.toNat - 48) else none

/-- Accumulating decimal parse of a digit list. -/
def parseNatCore : List Char → Nat → Option Nat
  | [], acc => some acc
  | c :: cs, acc =>
    match digitVal c with
    | none => none
    | some d => parseNatCore cs (acc * 10 + d)

/-- Parse a non-empty all-digit character list as a decimal number. -/
def parseNatDigits (cs : List Char) : Option Nat :=
  match cs with
  | [] => none
  | _ :: _ => parseNatCore cs 0

/-- Gregorian leap-year rule, as `datetime` validates dates. -/
def isLeapYear (y : Nat) : Bool :=
  (y % 4 == 0 && y % 100 != 0) || y % 400 == 0

/-- Number of days of month `m` in year `y` (months numbered 1-12). -/
def daysInMonth (y m : Nat) : Nat :=
  if m == 2 then (if isLeapYear y then 29 else 28)
  else if m == 4 || m == 6 || m == 9 || m == 11 then 30
  else 31

/-- Python `strptime` day field `%d`: one or two digits, value 1..31. -/
def parseDayField (cs : List Char) : Option Nat :=
  match parseNatDigits cs with
  | none => none
  | some n => if cs.length ≤ 2 && 1 ≤ n && n ≤ 31 then some n else none

/-- Python `strptime` year field `%Y`: exactly four digits; `datetime`
additionally requires year ≥ 1. -/
def parseYearField (cs : List Char) : Option Nat :=
  if cs.length == 4 then
    match parseNatDigits cs with
    | none => none
    | some n => if 1 ≤ n then some n else none
  else none

/-- Full weekday names accepted (case-insensitively) by `strptime` `%A`. -/
def WEEKDAYS : List (List Char) :=
  ["monday".toList, "tuesday".toList, "wednesday".toList, "thursday".toList,
   "friday".toList, "saturday".toList, "sunday".toList]

/-- Full month names accepted (case-insensitively) by `strptime` `%B`,
paired with their month number. -/
def MONTHS : List (List Char × Nat) :=
  [("january".toList, 1), ("february".toList, 2), ("march".toList, 3),
   ("april".toList, 4), ("may".toList, 5), ("june".toList, 6),
   ("july".toList, 7), ("august".toList, 8), ("september".toList, 9),
   ("october".toList, 10), ("november".toList, 11), ("december".toList, 12)]

/-- Model of `datetime.strptime(s, "%A %d %B %Y").date()`: a full weekday
name, a 1-2 digit day, a full month name and a 4-digit year, separated by
single spaces (the weekday is matched but, as in CPython, not checked for
consistency with the resulting date); the date itself must be valid.
Returns `none` where Python raises `ValueError`. -/
def strptimeLBBD (s : String) : Option Date :=
  match splitOnChar ' ' s.toList with
  | [w, d, m, y] =>
    if WEEKDAYS.contains (lowerChars w) then
      match parseDayField d, MONTHS.lookup (lowerChars m), parseYearField y with
      | some day, some mon, some yr =>
        if day ≤ daysInMonth yr mon then some ⟨yr, mon, day⟩ else none
      | _, _, _ => none
    else none
  | _ => none

/-- A JSON value, as `json.loads` produces (objects as key/value lists). -/
inductive JVal where
  | null
  | bool (b : Bool)
  | num (n : Int)
  | str (s : String)
  | arr (xs : List JVal)
  | obj (fields : List (String × JVal))

/-- Python truthiness of a JSON-decoded value. -/
def JVal.truthy : JVal → Bool
  | .null => false
  | .bool b => b
  | .num n => n != 0
  | .str s => !s.isEmpty
  | .arr xs => !xs.isEmpty
  | .obj fields => !fields.isEmpty

/-- The string payload of a JSON value, `none` on any non-string
(where Python `strptime` would raise a `TypeError`). -/
def JVal.asStr : JVal → Option String
  | .str s => some s
  | _ => none

namespace LBBD

/-- `COLLECTION_MAP`: the static bin-type classification table of
`lbbd_gov_uk.py`, as waste-type label and icon; `none` where
`dict.get` would miss. -/
def COLLECTION_MAP : String → Option (String × String)
  | "Grey-Household" => some ("General waste", "mdi:trash-can")
  | "Brown-Recycling" => some ("Recycling", "mdi:recycle")
  | "Green-Garden" => some ("Garden waste", "mdi:grass")
  | _ => none

/-- One entry of the `results` array of the API response:
`bin_type`, `nextcollection` (any JSON value, tested for truthiness),
and `futurecollections` (array of date strings). -/
structure LbbdResult where
  bin_type : String
  nextcollection : JVal
  futurecollections : List String

/-- `COLLECTION_MAP.get(bin_type, {"waste_type": bin_type, "icon": None})`. -/
def collectionTypeFor (bt : String) : String × Option String :=
  match COLLECTION_MAP bt with
  | some (w, i) => (w, some i)
  | none => (bt, none)

/-- The date list of one result entry:
`([result["nextcollection"]] if result["nextcollection"] else []) +
result["futurecollections"]`. -/
def entryDateVals (r : LbbdResult) : List JVal :=
  (if r.nextcollection.truthy then [r.nextcollection] else [])
    ++ r.futurecollections.map JVal.str

/-- The inner `for collection_date in …` loop: parse each date value with
`strptime` and append a `Collection` built from the classification `ct`.
A non-string raises `TypeError`, an unparseable string `ValueError`. -/
def datesLoop (ct : String × Option String) :
    List JVal → List Collection → Except String (List Collection)
  | [], acc => .ok acc
  | v :: rest, acc =>
    match v.asStr with
    | none => .error "TypeError: strptime() argument 1 must be str"
    | some s =>
      match strptimeLBBD s with
      | none =>
        .error ("ValueError: time data " ++ s
          ++ " does not match format %A %d %B %Y")
      | some d => datesLoop ct rest (acc ++ [⟨d, ct.1, ct.2⟩])

/-- The outer `for result in rubbish_data["results"]` loop, appending to
the `entries` accumulator. -/
def resultsLoop : List LbbdResult → List Collection → Except String (List Collection)
  | [], acc => .ok acc
  | r :: rest, acc =>
    match datesLoop (collectionTypeFor r.bin_type) (entryDateVals r) acc with
    | .error e => .error e
    | .ok acc2 => resultsLoop rest acc2

/-- `Source.fetch` of `lbbd_gov_uk.py`, applied to the parsed `results`
array of the JSON response body. -/
def fetch (results : List LbbdResult) : Except String (List Collection) :=
  resultsLoop results []

/-- Map a fallible function over a list, `none` as soon as one element
fails (the `Option`-valued `mapM`, written structurally). -/
def optMapList {α β : Type} (f : α → Option β) : List α → Option (List β)
  | [] => some []
  | x :: xs =>
    match f x, optMapList f xs with
    | some y, some ys => some (y :: ys)
    | _, _ => none

/-- Parse one date value as `fetch` does: it must be a string and match
the `%A %d %B %Y` format. -/
def parseDateVal (v : JVal) : Option Date :=
  v.asStr.bind strptimeLBBD

/-- Spec-side description of one entry's output: parse each date value of
the entry (next-collection first, then future collections in array order)
and emit one `Collection` per date, all carrying the entry's classified
waste type and icon. `none` when some date value fails to parse. -/
def specEntryColls (r : LbbdResult) : Option (List Collection) :=
  let ct := collectionTypeFor r.bin_type
  (optMapList parseDateVal (entryDateVals r)).map
    (List.map (fun d => ⟨d, ct.1, ct.2⟩))

end LBBD

namespace Woollahra

/-- `CLEANUP_ICON` constant of `woollahra_nsw_gov_au.py`. -/
def CLEANUP_ICON : String := "mdi:delete-sweep"

/-- `ICON_MAP`: the static waste-type-to-icon table; `none` where
`dict.get` would miss. -/
def ICON_MAP : String → Option String
  | "General Waste" => some "mdi:trash-can"
  | "Green Waste" => some "mdi:leaf"
  | "Recycling" => some "mdi:recycle"
  | "Spring Clean-Up" => some CLEANUP_ICON
  | "Summer Clean-Up" => some CLEANUP_ICON
  | "Winter Clean-Up" => some CLEANUP_ICON
  | _ => none

/-- Parse one slash-separated token as a day-first numeric date
`d/m/y` with a four-digit year, validating the calendar date. -/
def parseSlashToken (cs : List Char) : Option Date :=
  match splitOnChar '/' cs with
  | [d, m, y] =>
    match parseNatDigits d, parseNatDigits m, parseNatDigits y with
    | some day, some mon, some yr =>
      if d.length ≤ 2 && m.length ≤ 2 && y.length == 4
          && 1 ≤ day && 1 ≤ mon && mon ≤ 12 && 1 ≤ yr
          && day ≤ daysInMonth yr mon then
        some ⟨yr, mon, day⟩
      else none
    | _, _, _ => none
  | _ => none

/-- Find the first token (after whitespace splitting) that parses. -/
def firstParsedToken : List (List Char) → Option Date
  | [] => none
  | t :: ts =>
    match parseSlashToken t with
    | some d => some d
    | none => firstParsedToken ts

/-- Modelled from the spec: `Source._parse_date` wraps
`dateutil.parser.parse(date_text, dayfirst=True, fuzzy=True).date()`, whose
implementation is outside this repository — "a fuzzy, day-first date parser
(tolerant of embedded non-date words and of day-before-month ordering)",
returning `None` on parse failure. The model scans the whitespace-separated
tokens of the text for a day-first numeric `d/m/yyyy` date and is undefined
(returns `none`, a parse failure) on every other shape of text. -/
def parse_date (date_text : String) : Option Date :=
  firstParsedToken (splitOnChar ' ' date_text.toList)

/-- One `div.waste-services-result` block of the parsed HTML fragment:
the text of its `h3` heading (if any) and the text of its
`div.next-service` child (if any), both as found by BeautifulSoup. -/
structure ResultBlock where
  heading : Option String
  nextService : Option String

/-- The seasonal clean-up normalization applied to the stripped heading
text: a label containing (case-insensitively) both a season word and
"clean" is rewritten to the canonical `{Season} Clean-Up` label,
spring checked first, then summer, then winter. -/
def normalizeWasteType (wt : String) : String :=
  if containsSub "spring".toList (lowerChars wt.toList)
      && containsSub "clean".toList (lowerChars wt.toList) then
    "Spring Clean-Up"
  else if containsSub "summer".toList (lowerChars wt.toList)
      && containsSub "clean".toList (lowerChars wt.toList) then
    "Summer Clean-Up"
  else if containsSub "winter".toList (lowerChars wt.toList)
      && containsSub "clean".toList (lowerChars wt.toList) then
    "Winter Clean-Up"
  else wt

/-- The `for item in services` loop of `Source.fetch`: skip a block with
no heading, normalize the stripped heading, skip a block with no
next-service element, parse the stripped date text with `parse_date`,
skip the block on parse failure, otherwise emit a `Collection` with the
icon looked up in `ICON_MAP` (default `"mdi:trash-can"`). -/
def processServices : List ResultBlock → List Collection
  | [] => []
  | item :: rest =>
    match item.heading with
    | none => processServices rest
    | some h =>
      let waste_type := normalizeWasteType (pyStrip h)
      match item.nextService with
      | none => processServices rest
      | some dtxt =>
        match parse_date (pyStrip dtxt) with
        | none => processServices rest
        | some date =>
          ⟨date, waste_type, some ((ICON_MAP waste_type).getD "mdi:trash-can")⟩
            :: processServices rest

/-- The observations `Source.fetch` makes of a response body:
the result of `json.loads` on it (`none` when undecodable) and whether
the text contains the `"Access Denied"` marker. -/
structure Body where
  json : Option JVal
  accessDenied : Bool

/-- An HTTP response as used by the source: status code and body. -/
structure Response where
  status_code : Nat
  body : Body

/-- The outcome of one `session.get`: a response, or a
`requests.RequestException` with a message. -/
inductive HttpOutcome where
  | resp (r : Response)
  | netErr (msg : String)

/-- The trace of one `_make_request_with_retry` call: how many GET
requests were performed, the sleep durations (seconds, in order), and
the returned response or raised exception message. -/
structure RetryTrace where
  requests : Nat
  sleeps : List Nat
  result : Except String Response

/-- The `for attempt in range(max_retries)` loop of
`_make_request_with_retry`. `outcomes n` is what the `n`-th GET (counted
from 0) produces; `remaining` is the number of loop iterations left,
`attempt` the current loop index, `reqs` and `sleeps` the trace so far.
Status 200 returns the response; status 403 with attempts remaining
sleeps `2^attempt` seconds and retries; any other status raises
immediately; a network error retries the same way except on the final
attempt, where it raises; an exhausted loop raises
`requests.exceptions.RequestException`. -/
def retryLoop (outcomes : Nat → HttpOutcome) (maxRetries : Nat) :
    Nat → Nat → Nat → List Nat → RetryTrace
  | 0, _, reqs, sleeps =>
    ⟨reqs, sleeps, .error "Max retries exceeded while fetching URL"⟩
  | remaining + 1, attempt, reqs, sleeps =>
    match outcomes attempt with
    | .resp r =>
      if r.status_code == 200 then
        ⟨reqs + 1, sleeps, .ok r⟩
      else if r.status_code == 403 && decide (attempt < maxRetries - 1) then
        retryLoop outcomes maxRetries remaining (attempt + 1) (reqs + 1)
          (sleeps ++ [2 ^ attempt])
      else
        ⟨reqs + 1, sleeps,
          .error ("Failed to fetch: " ++ toString r.status_code
            ++ " (attempt " ++ toString (attempt + 1) ++ ")")⟩
    | .netErr msg =>
      if attempt == maxRetries - 1 then
        ⟨reqs + 1, sleeps, .error ("Network error: " ++ msg)⟩
      else
        retryLoop outcomes maxRetries remaining (attempt + 1) (reqs + 1)
          (sleeps ++ [2 ^ attempt])

/-- `Source._make_request_with_retry(session, url, headers, max_retries)`,
with the upstream behaviour of the requested URL given by `outcomes`. -/
def make_request_with_retry (outcomes : Nat → HttpOutcome)
    (maxRetries : Nat := 3) : RetryTrace :=
  retryLoop outcomes maxRetries maxRetries 0 0 []

/-- Python `dict.get(key)` on a JSON value: a lookup on an object,
an `AttributeError` on anything else. -/
def pyGet (v : JVal) (key : String) : Except String (Option JVal) :=
  match v with
  | .obj fields => .ok (fields.lookup key)
  | _ => .error "AttributeError: object has no attribute get"

/-- Python truthiness of an optional value (`None` is falsy). -/
def optTruthy : Option JVal → Bool
  | some v => v.truthy
  | none => false

/-- Lines 126-133 and 155-161: `json.loads(r.text)` guarded by the
`"Access Denied"` heuristic, with the per-call-site error messages. -/
def parseJsonBody (b : Body) (deniedMsg invalidMsg : String) :
    Except String JVal :=
  match b.json with
  | some v => .ok v
  | none => if b.accessDenied then .error deniedMsg else .error invalidMsg

/-- Lines 136-137: `location_id = data["Items"][0]["Id"]` guarded by
`if data.get("Items") and len(data["Items"]) > 0`. Returns the assigned
location id (`none` when the guard fails and `location_id` stays `None`);
non-object data, a non-indexable `Items`, a non-object first item or a
missing `Id` key raise. -/
def getLocationId (data : JVal) : Except String (Option JVal) :=
  match pyGet data "Items" with
  | .error e => .error e
  | .ok none => .ok none
  | .ok (some items) =>
    if items.truthy then
      match items with
      | .arr (x :: _) =>
        match x with
        | .obj f =>
          match f.lookup "Id" with
          | some v => .ok (some v)
          | none => .error "KeyError: Id"
        | _ => .error "TypeError: first item is not subscriptable by key"
      | .arr [] => .ok none
      | .str _ => .error "TypeError: string indices must be integers"
      | .obj _ => .error "KeyError: 0"
      | _ => .error "TypeError: object has no len()"
    else .ok none

/-- The upstream environment a Woollahra `fetch` runs against: the
outcome of the warm-up GET of the public page, and the outcome of the
`n`-th GET of the address-search and of the collection-schedule
endpoint respectively. -/
structure WEnv where
  mainPage : HttpOutcome
  search : Nat → HttpOutcome
  collection : Nat → HttpOutcome

/-- The observable trace of one `Source.fetch` call:
whether the collection-schedule endpoint was requested at all, whether
one of the two post-helper `status_code != 200` branches was entered,
and the returned entries or raised exception message. -/
structure FetchTrace where
  collectionRequested : Bool
  deadBranch : Bool
  result : Except String (List Collection)

/-- Lines 163-208: the handling of the decoded waste-services JSON —
the `success` / `responseContent` guard, BeautifulSoup parsing of the
HTML fragment (modelled by `findAll`, which yields the
`div.waste-services-result` blocks of a fragment), and the block loop. -/
def wasteServicesEntries (data : JVal)
    (findAll : String → List ResultBlock) :
    Except String (List Collection) :=
  match pyGet data "success" with
  | .error e => .error e
  | .ok sOpt =>
    if !optTruthy sOpt then .error "Invalid response from waste services API"
    else
      match pyGet data "responseContent" with
      | .error e => .error e
      | .ok rcOpt =>
        if !optTruthy rcOpt then
          .error "Invalid response from waste services API"
        else
          match rcOpt with
          | some (.str html) => .ok (processServices (findAll html))
          | _ => .error "TypeError: BeautifulSoup expects a string document"

/-- Lines 150-208: the collection-schedule phase of `fetch`, entered
once a truthy location id was found. Returns the dead-branch flag and
the result. -/
def collectionPhase (env : WEnv) (findAll : String → List ResultBlock) :
    Bool × Except String (List Collection) :=
  match (make_request_with_retry env.collection 3).result with
  | .error e => (false, .error e)
  | .ok r =>
    if r.status_code ≠ 200 then
      (true, .error ("Unable to access Woollahra waste services API (status: "
        ++ toString r.status_code ++ ")"))
    else
      match parseJsonBody r.body
          "Access denied by Woollahra website during waste services fetch."
          "Invalid JSON response from waste services API" with
      | .error e => (false, .error e)
      | .ok data => (false, wasteServicesEntries data findAll)

/-- `Source.fetch` of `woollahra_nsw_gov_au.py`, against upstream
environment `env`. `address` is the stored (stripped) constructor
argument. The warm-up GET of the public page (`env.mainPage`) only
sleeps or is ignored, so it does not influence the trace. -/
def fetch (address : String) (env : WEnv)
    (findAll : String → List ResultBlock) : FetchTrace :=
  match (make_request_with_retry env.search 3).result with
  | .error e => ⟨false, false, .error e⟩
  | .ok r =>
    if r.status_code ≠ 200 then
      ⟨false, true, .error ("Unable to access Woollahra API (status: "
        ++ toString r.status_code
        ++ "). This may be due to bot protection. Please try again later or contact support.")⟩
    else
      match parseJsonBody r.body
          "Access denied by Woollahra website. This may be due to bot protection measures. Please try again later."
          "Invalid JSON response from address search API" with
      | .error e => ⟨false, false, .error e⟩
      | .ok data =>
        match getLocationId data with
        | .error e => ⟨false, false, .error e⟩
        | .ok locOpt =>
          if optTruthy locOpt then
            let p := collectionPhase env findAll
            ⟨true, p.1, p.2⟩
          else
            ⟨false, false, .error ("Unable to find location ID for " ++ address
              ++ ". Please check your address details are correct.")⟩

/-- A test environment whose address-search endpoint replies 200 with
body `b` on every attempt and whose other endpoints are irrelevant. -/
def constSearchEnv (b : Body) : WEnv :=
  ⟨.netErr "connection reset", fun _ => .resp ⟨200, b⟩,
    fun _ => .netErr "connection reset"⟩

/-- A BeautifulSoup model finding no result blocks in any fragment. -/
def noBlocks : String → List ResultBlock := fun _ => []

end Woollahra

namespace LBBD

/-- A successful inner loop run appends exactly the parsed dates of its
input, in order, each wrapped with the classification `ct`. -/
theorem datesLoop_ok_spec (ct : String × Option String) :
    ∀ (vs : List JVal) (acc cs : List Collection),
      datesLoop ct vs acc = .ok cs →
      ∃ ds, optMapList parseDateVal vs = some ds
        ∧ cs = acc ++ ds.map (fun d => ⟨d, ct.1, ct.2⟩) := by
  intro vs
  induction vs with
  | nil =>
    intro acc cs h
    refine ⟨[], rfl, ?_⟩
    simp [datesLoop] at h
    simp [h]
  | cons v rest ih =>
    intro acc cs h
    cases hv : v.asStr with
    | none => simp [datesLoop, hv] at h
    | some s =>
      cases hs : strptimeLBBD s with
      | none => simp [datesLoop, hv, hs] at h
      | some d =>
        simp only [datesLoop, hv, hs] at h
        obtain ⟨ds, hmap, hcs⟩ := ih _ _ h
        refine ⟨d :: ds, ?_, ?_⟩
        · simp [optMapList, parseDateVal, hv, hs, hmap]
        · simp [hcs]

/-- If some date value of the list fails to parse, the inner loop raises. -/
theorem datesLoop_error_of_none (ct : String × Option String) :
    ∀ (vs : List JVal) (acc : List Collection),
      optMapList parseDateVal vs = none →
      ∃ e, datesLoop ct vs acc = .error e := by
  intro vs
  induction vs with
  | nil => intro acc h; exact absurd h (by simp [optMapList])
  | cons v rest ih =>
    intro acc h
    cases hv : v.asStr with
    | none =>
      exact ⟨"TypeError: strptime() argument 1 must be str",
        by simp [datesLoop, hv]⟩
    | some s =>
      cases hs : strptimeLBBD s with
      | none =>
        exact ⟨"ValueError: time data " ++ s
            ++ " does not match format %A %d %B %Y",
          by simp [datesLoop, hv, hs]⟩
      | some d =>
        have hrest : optMapList parseDateVal rest = none := by
          simp only [optMapList,
            show parseDateVal v = some d by simp [parseDateVal, hv, hs]] at h
          cases hr : optMapList parseDateVal rest with
          | none => rfl
          | some ys => rw [hr] at h; simp at h
        obtain ⟨e, he⟩ := ih (acc ++ [⟨d, ct.1, ct.2⟩]) hrest
        exact ⟨e, by simp [datesLoop, hv, hs, he]⟩

/-- A successful outer loop run appends the concatenation of the
per-entry collection lists, entries in `results` order. -/
theorem resultsLoop_ok_spec :
    ∀ (results : List LbbdResult) (acc cs : List Collection),
      resultsLoop results acc = .ok cs →
      ∃ gs, optMapList specEntryColls results = some gs
        ∧ cs = acc ++ gs.flatten := by
  intro results
  induction results with
  | nil =>
    intro acc cs h
    refine ⟨[], rfl, ?_⟩
    simp [resultsLoop] at h
    simp [h]
  | cons r rest ih =>
    intro acc cs h
    cases hd : datesLoop (collectionTypeFor r.bin_type) (entryDateVals r) acc with
    | error e => simp [resultsLoop, hd] at h
    | ok acc2 =>
      simp only [resultsLoop, hd] at h
      obtain ⟨ds, hmap, hacc2⟩ := datesLoop_ok_spec _ _ _ _ hd
      obtain ⟨gs, hmaps, hcs⟩ := ih _ _ h
      refine ⟨(ds.map (fun d =>
        ⟨d, (collectionTypeFor r.bin_type).1, (collectionTypeFor r.bin_type).2⟩)) :: gs,
        ?_, ?_⟩
      · simp only [optMapList, hmaps]
        rw [show specEntryColls r = some (ds.map (fun d =>
          ⟨d, (collectionTypeFor r.bin_type).1, (collectionTypeFor r.bin_type).2⟩))
          by simp [specEntryColls, hmap]]
      · simp [hcs, hacc2]

/-- If some entry's date list fails to parse, the outer loop raises. -/
theorem resultsLoop_error_of_entry_fail :
    ∀ (results : List LbbdResult) (acc : List Collection) (r : LbbdResult),
      r ∈ results → specEntryColls r = none →
      ∃ e, resultsLoop results acc = .error e := by
  intro results
  induction results with
  | nil => intro acc r hmem; exact absurd hmem (by simp)
  | cons r0 rest ih =>
    intro acc r hmem hfail
    cases hd : datesLoop (collectionTypeFor r0.bin_type) (entryDateVals r0) acc with
    | error e => exact ⟨e, by simp [resultsLoop, hd]⟩
    | ok acc2 =>
      rcases List.mem_cons.mp hmem with heq | htl
      · subst heq
        have hnone : optMapList parseDateVal (entryDateVals r) = none := by
          unfold specEntryColls at hfail
          cases hm : optMapList parseDateVal (entryDateVals r) with
          | none => rfl
          | some ds => rw [hm] at hfail; simp at hfail
        obtain ⟨e, he⟩ := datesLoop_error_of_none _ _ acc hnone
        rw [hd] at he
        exact absurd he (by simp)
      · obtain ⟨e, he⟩ := ih acc2 r htl hfail
        exact ⟨e, by simp [resultsLoop, hd, he]⟩

/-- Mapping the parser over plain strings wrapped as JSON strings is
mapping `strptimeLBBD` over the strings. -/
theorem optMapList_parseDateVal_str :
    ∀ (ss : List String),
      optMapList parseDateVal (ss.map JVal.str) = optMapList strptimeLBBD ss := by
  intro ss
  induction ss with
  | nil => rfl
  | cons s rest ih => simp [optMapList, parseDateVal, JVal.asStr, ih]

/-- A successful `optMapList` run preserves the length. -/
theorem optMapList_length {α β : Type} (f : α → Option β) :
    ∀ (xs : List α) (ys : List β), optMapList f xs = some ys →
      ys.length = xs.length := by
  intro xs
  induction xs with
  | nil => intro ys h; simp [optMapList] at h; simp [← h]
  | cons x rest ih =>
    intro ys h
    unfold optMapList at h
    cases hx : f x with
    | none => rw [hx] at h; simp at h
    | some y =>
      rw [hx] at h
      cases hr : optMapList f rest with
      | none => rw [hr] at h; simp at h
      | some ys2 =>
        rw [hr] at h
        simp at h
        simp [← h, ih _ hr]

/-- `optMapList` fails as soon as one member fails. -/
theorem optMapList_none_of_mem {α β : Type} (f : α → Option β) :
    ∀ (xs : List α) (x : α), x ∈ xs → f x = none →
      optMapList f xs = none := by
  intro xs
  induction xs with
  | nil => intro x hmem; exact absurd hmem (by simp)
  | cons y rest ih =>
    intro x hmem hx
    rcases List.mem_cons.mp hmem with heq | htl
    · subst heq
      simp [optMapList, hx]
    · have hr := ih x htl hx
      cases hy : f y <;> simp [optMapList, hy, hr]

/-- A successful single-entry `fetch` returns exactly the entry's
spec-side collection list. -/
theorem fetch_singleton_spec (r : LbbdResult) (cs : List Collection)
    (h : fetch [r] = .ok cs) : specEntryColls r = some cs := by
  obtain ⟨gs, hm, hcs⟩ := resultsLoop_ok_spec [r] [] cs h
  cases hsr : specEntryColls r with
  | none => simp [optMapList, hsr] at hm
  | some g =>
    simp [optMapList, hsr] at hm
    simp [hcs, ← hm, hsr]

end LBBD

/-- C1: for the Barking & Dagenham `Source`, a successful `fetch` yields
one `Collection` per (entry, date) pair of the `results` array — entries
in `results` order, each entry's dates ordered nextcollection-first then
futurecollections in array order, with the entry's classified waste type
and icon (the per-entry lists being `specEntryColls`, the spec-side
description). -/
theorem C1_lbbd_one_collection_per_pair
    (results : List LBBD.LbbdResult) (cs : List Collection)
    (h : LBBD.fetch results = .ok cs) :
    ∃ gs, LBBD.optMapList LBBD.specEntryColls results = some gs
      ∧ cs = gs.flatten := by
  obtain ⟨gs, hm, hcs⟩ := LBBD.resultsLoop_ok_spec results [] cs h
  exact ⟨gs, hm, by simp [hcs]⟩

/-- Witness for C1 at the concrete response of the claim: one
`Grey-Household` entry with next collection `Monday 01 January 2024` and
future collection `Monday 08 January 2024` yields exactly the two
General-waste collections, in that order. -/
theorem C1_witness :
    LBBD.fetch [⟨"Grey-Household", .str "Monday 01 January 2024",
        ["Monday 08 January 2024"]⟩]
      = .ok [⟨⟨2024, 1, 1⟩, "General waste", some "mdi:trash-can"⟩,
             ⟨⟨2024, 1, 8⟩, "General waste", some "mdi:trash-can"⟩]
    ∧ ∃ gs, LBBD.optMapList LBBD.specEntryColls
          [⟨"Grey-Household", .str "Monday 01 January 2024",
            ["Monday 08 January 2024"]⟩] = some gs
        ∧ [⟨⟨2024, 1, 1⟩, "General waste", some "mdi:trash-can"⟩,
           ⟨⟨2024, 1, 8⟩, "General waste", some "mdi:trash-can"⟩] = gs.flatten :=
  ⟨rfl, C1_lbbd_one_collection_per_pair _ _ rfl⟩

/-- C5: Barking & Dagenham date strings are parsed with exactly the
`%A %d %B %Y` format — the claim's example parses, the same string
without the weekday does not, an ISO date does not — and whenever any
date string of the response fails the format, `fetch` raises and returns
no collections. -/
theorem C5_lbbd_date_format_strict :
    strptimeLBBD "Monday 01 January 2024" = some ⟨2024, 1, 1⟩
    ∧ strptimeLBBD "01 January 2024" = none
    ∧ strptimeLBBD "2024-01-01" = none
    ∧ ∀ (results : List LBBD.LbbdResult) (r : LBBD.LbbdResult) (v : JVal)
        (s : String), r ∈ results → v ∈ LBBD.entryDateVals r →
        v.asStr = some s → strptimeLBBD s = none →
        ∃ e, LBBD.fetch results = .error e := by
  refine ⟨rfl, rfl, rfl, ?_⟩
  intro results r v s hr hv hstr hparse
  have hval : LBBD.parseDateVal v = none := by
    simp [LBBD.parseDateVal, hstr, hparse]
  have hnone : LBBD.optMapList LBBD.parseDateVal (LBBD.entryDateVals r) = none :=
    LBBD.optMapList_none_of_mem _ _ v hv hval
  have hfail : LBBD.specEntryColls r = none := by
    simp [LBBD.specEntryColls, hnone]
  exact LBBD.resultsLoop_error_of_entry_fail results [] r hr hfail

/-- Witness for C5: a response whose future collection reads
`"tomorrow"` makes `fetch` fail with a `ValueError`; the three format
facts hold as stated. -/
theorem C5_witness :
    (⟨"Grey-Household", .str "Monday 01 January 2024", ["tomorrow"]⟩ :
        LBBD.LbbdResult)
      ∈ [(⟨"Grey-Household", .str "Monday 01 January 2024", ["tomorrow"]⟩ :
        LBBD.LbbdResult)]
    ∧ JVal.str "tomorrow"
      ∈ LBBD.entryDateVals
          ⟨"Grey-Household", .str "Monday 01 January 2024", ["tomorrow"]⟩
    ∧ (JVal.str "tomorrow").asStr = some "tomorrow"
    ∧ strptimeLBBD "tomorrow" = none
    ∧ ∃ e, LBBD.fetch
        [⟨"Grey-Household", .str "Monday 01 January 2024", ["tomorrow"]⟩]
        = .error e := by
  have hmemv : JVal.str "tomorrow"
      ∈ LBBD.entryDateVals
          ⟨"Grey-Household", .str "Monday 01 January 2024", ["tomorrow"]⟩ := by
    rw [show LBBD.entryDateVals
        ⟨"Grey-Household", .str "Monday 01 January 2024", ["tomorrow"]⟩
      = [JVal.str "Monday 01 January 2024", JVal.str "tomorrow"] from rfl]
    exact List.mem_cons_of_mem _ (List.mem_singleton.mpr rfl)
  refine ⟨List.mem_singleton.mpr rfl, hmemv, rfl, rfl, ?_⟩
  exact C5_lbbd_date_format_strict.2.2.2
    [⟨"Grey-Household", .str "Monday 01 January 2024", ["tomorrow"]⟩]
    ⟨"Grey-Household", .str "Monday 01 January 2024", ["tomorrow"]⟩
    (.str "tomorrow") "tomorrow"
    (List.mem_singleton.mpr rfl) hmemv rfl rfl

/-- C8: the two sources disagree on fallback policy — a Barking &
Dagenham entry whose `bin_type` is not in `COLLECTION_MAP` yields
collections typed with the raw `bin_type` and no icon, while a Woollahra
block whose (normalized) label is not in `ICON_MAP` yields the generic
trash icon. -/
theorem C8_unknown_category_fallbacks :
    (∀ (r : LBBD.LbbdResult) (cs : List Collection),
       LBBD.COLLECTION_MAP r.bin_type = none →
       LBBD.fetch [r] = .ok cs →
       ∀ c ∈ cs, c.waste_type = r.bin_type ∧ c.icon = none)
    ∧ (∀ (b : Woollahra.ResultBlock) (h s : String) (d : Date),
         b.heading = some h →
         Woollahra.ICON_MAP (Woollahra.normalizeWasteType (pyStrip h)) = none →
         b.nextService = some s →
         Woollahra.parse_date (pyStrip s) = some d →
         Woollahra.processServices [b]
           = [⟨d, Woollahra.normalizeWasteType (pyStrip h),
               some "mdi:trash-can"⟩]) := by
  constructor
  · intro r cs hmap h c hc
    have hspec := LBBD.fetch_singleton_spec r cs h
    have hct : LBBD.collectionTypeFor r.bin_type = (r.bin_type, none) := by
      simp [LBBD.collectionTypeFor, hmap]
    cases hds : LBBD.optMapList LBBD.parseDateVal (LBBD.entryDateVals r) with
    | none => simp [LBBD.specEntryColls, hds] at hspec
    | some ds =>
      simp [LBBD.specEntryColls, hds, hct] at hspec
      rw [← hspec] at hc
      obtain ⟨d, _, hcd⟩ := List.mem_map.mp hc
      simp [← hcd]
  · intro b h s d hh hicon hn hp
    simp [Woollahra.processServices, hh, hn, hp, hicon]

/-- Witness for C8: an unrecognized bin type `"Pink-Unknown"` keeps its
raw label with no icon; a Woollahra block headed `"Food Scraps"` (absent
from `ICON_MAP`) gets the generic trash icon. -/
theorem C8_witness :
    LBBD.COLLECTION_MAP "Pink-Unknown" = none
    ∧ LBBD.fetch [⟨"Pink-Unknown", .null, ["Monday 01 January 2024"]⟩]
        = .ok [⟨⟨2024, 1, 1⟩, "Pink-Unknown", none⟩]
    ∧ (∀ c ∈ [(⟨⟨2024, 1, 1⟩, "Pink-Unknown", none⟩ : Collection)],
         c.waste_type = "Pink-Unknown" ∧ c.icon = none)
    ∧ Woollahra.ICON_MAP (Woollahra.normalizeWasteType (pyStrip "Food Scraps"))
        = none
    ∧ Woollahra.processServices [⟨some "Food Scraps", some "15/03/2025"⟩]
        = [⟨⟨2025, 3, 15⟩, "Food Scraps", some "mdi:trash-can"⟩] :=
  ⟨rfl, rfl,
    C8_unknown_category_fallbacks.1
      ⟨"Pink-Unknown", .null, ["Monday 01 January 2024"]⟩ _ rfl rfl,
    rfl,
    C8_unknown_category_fallbacks.2
      ⟨some "Food Scraps", some "15/03/2025"⟩ "Food Scraps" "15/03/2025"
      ⟨2025, 3, 15⟩ rfl rfl rfl rfl⟩

/-- C9: a falsy `nextcollection` contributes no collection — the output
of a single-entry `fetch` is exactly the parse of `futurecollections`,
one collection per future date. -/
theorem C9_falsy_nextcollection (r : LBBD.LbbdResult) (cs : List Collection)
    (hf : r.nextcollection.truthy = false)
    (h : LBBD.fetch [r] = .ok cs) :
    cs.length = r.futurecollections.length
    ∧ LBBD.optMapList strptimeLBBD r.futurecollections
        = some (cs.map Collection.date) := by
  have hspec := LBBD.fetch_singleton_spec r cs h
  have hvals : LBBD.entryDateVals r = r.futurecollections.map JVal.str := by
    simp [LBBD.entryDateVals, hf]
  cases hds : LBBD.optMapList LBBD.parseDateVal (LBBD.entryDateVals r) with
  | none => simp [LBBD.specEntryColls, hds] at hspec
  | some ds =>
    simp [LBBD.specEntryColls, hds] at hspec
    have hlen : ds.length = (LBBD.entryDateVals r).length :=
      LBBD.optMapList_length _ _ _ hds
    constructor
    · rw [← hspec]
      simp [hlen, hvals]
    · rw [← LBBD.optMapList_parseDateVal_str, ← hvals, hds, ← hspec]
      rw [List.map_map,
        show (Collection.date ∘ fun d =>
          (⟨d, (LBBD.collectionTypeFor r.bin_type).1,
            (LBBD.collectionTypeFor r.bin_type).2⟩ : Collection)) = id from rfl]
      simp

/-- Witness for C9: an entry with empty-string `nextcollection` and one
future collection yields exactly that one date. -/
theorem C9_witness :
    (JVal.str "").truthy = false
    ∧ LBBD.fetch [⟨"Grey-Household", .str "", ["Monday 08 January 2024"]⟩]
        = .ok [⟨⟨2024, 1, 8⟩, "General waste", some "mdi:trash-can"⟩]
    ∧ ([(⟨⟨2024, 1, 8⟩, "General waste", some "mdi:trash-can"⟩ : Collection)].length
        = ["Monday 08 January 2024"].length
      ∧ LBBD.optMapList strptimeLBBD ["Monday 08 January 2024"]
          = some ([(⟨⟨2024, 1, 8⟩, "General waste", some "mdi:trash-can"⟩ :
              Collection)].map Collection.date)) :=
  ⟨rfl, rfl,
    C9_falsy_nextcollection ⟨"Grey-Household", .str "", ["Monday 08 January 2024"]⟩
      _ rfl rfl⟩

namespace Woollahra

/-- The only `return` of the retry loop is guarded by
`r.status_code == 200`. -/
theorem retryLoop_ok_status (outcomes : Nat → HttpOutcome) (maxRetries : Nat) :
    ∀ (remaining attempt reqs : Nat) (sleeps : List Nat) (r : Response),
      (retryLoop outcomes maxRetries remaining attempt reqs sleeps).result
        = .ok r →
      r.status_code = 200 := by
  intro remaining
  induction remaining with
  | zero => intro attempt reqs sleeps r h; simp [retryLoop] at h
  | succ rem ih =>
    intro attempt reqs sleeps r h
    cases ho : outcomes attempt with
    | resp r0 =>
      by_cases h200 : r0.status_code = 200
      · simp only [retryLoop, ho, h200] at h
        simp at h
        rw [← h]
        exact h200
      · by_cases h403 : r0.status_code = 403 ∧ attempt < maxRetries - 1
        · simp only [retryLoop, ho] at h
          rw [if_neg (by simp [h200]), if_pos (by simp [h403.1, h403.2])] at h
          exact ih _ _ _ _ h
        · simp only [retryLoop, ho] at h
          rw [if_neg (by simp [h200]), if_neg (by
            simp only [Bool.and_eq_true, beq_iff_eq, decide_eq_true_eq]
            intro hc
            exact h403 hc)] at h
          simp at h
    | netErr msg =>
      by_cases hfin : attempt = maxRetries - 1
      · subst hfin
        simp [retryLoop, ho] at h
      · simp only [retryLoop, ho] at h
        rw [if_neg (by simp [hfin])] at h
        exact ih _ _ _ _ h

/-- Corollary at the helper's entry point. -/
theorem make_request_ok_status (outcomes : Nat → HttpOutcome)
    (maxRetries : Nat) (r : Response)
    (h : (make_request_with_retry outcomes maxRetries).result = .ok r) :
    r.status_code = 200 :=
  retryLoop_ok_status outcomes maxRetries maxRetries 0 0 [] r h

/-- One 403 iteration with attempts remaining: sleep `2^attempt` seconds
and move to the next attempt. -/
theorem retryLoop_403_step (outcomes : Nat → HttpOutcome)
    (maxRetries rem att reqs : Nat) (sleeps : List Nat) (r : Response)
    (h : outcomes att = .resp r) (h403 : r.status_code = 403)
    (hlt : att < maxRetries - 1) :
    retryLoop outcomes maxRetries (rem + 1) att reqs sleeps
      = retryLoop outcomes maxRetries rem (att + 1) (reqs + 1)
          (sleeps ++ [2 ^ att]) := by
  simp [retryLoop, h, h403, hlt]

/-- A status-200 attempt returns that response immediately, with no
further request and no further sleep. -/
theorem retryLoop_200_immediate (outcomes : Nat → HttpOutcome)
    (maxRetries rem att reqs : Nat) (sleeps : List Nat) (r : Response)
    (h : outcomes att = .resp r) (h200 : r.status_code = 200) :
    retryLoop outcomes maxRetries (rem + 1) att reqs sleeps
      = ⟨reqs + 1, sleeps, .ok r⟩ := by
  simp [retryLoop, h, h200]

/-- The collection phase never enters its `status_code != 200` branch. -/
theorem collectionPhase_not_dead (env : WEnv)
    (findAll : String → List ResultBlock) :
    (collectionPhase env findAll).1 = false := by
  unfold collectionPhase
  cases hc : (make_request_with_retry env.collection 3).result with
  | error e => simp [hc]
  | ok r =>
    have h200 := make_request_ok_status env.collection 3 r hc
    simp only [hc]
    rw [if_neg (by simp [h200])]
    cases hp : parseJsonBody r.body
        "Access denied by Woollahra website during waste services fetch."
        "Invalid JSON response from waste services API" with
    | error e => simp [hp]
    | ok data => simp [hp]

/-- The block loop processes each block independently. -/
theorem processServices_append :
    ∀ (xs ys : List ResultBlock),
      processServices (xs ++ ys) = processServices xs ++ processServices ys := by
  intro xs ys
  induction xs with
  | nil => simp [processServices]
  | cons b rest ih =>
    cases hh : b.heading with
    | none => simp [processServices, hh, ih]
    | some h =>
      cases hn : b.nextService with
      | none => simp [processServices, hh, hn, ih]
      | some s =>
        cases hp : parse_date (pyStrip s) with
        | none => simp [processServices, hh, hn, hp, ih]
        | some d => simp [processServices, hh, hn, hp, ih]

end Woollahra


/-- C2: a Woollahra retry-helper call (`max_retries = 3`) whose first two
GETs return 403 and whose third returns 200 performs exactly 3 requests,
sleeping `2^0 = 1` second after the first 403 and `2^1 = 2` seconds after
the second, and returns the 200 response; moreover any attempt that
returns status 200 returns that response immediately, with no further
request. -/
theorem C2_retry_backoff_two_403_then_200 :
    (∀ (outcomes : Nat → Woollahra.HttpOutcome)
       (r0 r1 r2 : Woollahra.Response),
       outcomes 0 = .resp r0 → r0.status_code = 403 →
       outcomes 1 = .resp r1 → r1.status_code = 403 →
       outcomes 2 = .resp r2 → r2.status_code = 200 →
       Woollahra.make_request_with_retry outcomes 3 = ⟨3, [1, 2], .ok r2⟩)
    ∧ (∀ (outcomes : Nat → Woollahra.HttpOutcome)
         (maxR rem att reqs : Nat) (sleeps : List Nat)
         (r : Woollahra.Response),
         outcomes att = .resp r → r.status_code = 200 →
         Woollahra.retryLoop outcomes maxR (rem + 1) att reqs sleeps
           = ⟨reqs + 1, sleeps, .ok r⟩) := by
  constructor
  · intro outcomes r0 r1 r2 h0 hs0 h1 hs1 h2 hs2
    show Woollahra.retryLoop outcomes 3 3 0 0 [] = ⟨3, [1, 2], .ok r2⟩
    have e1 : Woollahra.retryLoop outcomes 3 3 0 0 []
        = Woollahra.retryLoop outcomes 3 2 1 1 [1] := by
      simpa using Woollahra.retryLoop_403_step outcomes 3 2 0 0 [] r0 h0 hs0
        (by norm_num)
    have e2 : Woollahra.retryLoop outcomes 3 2 1 1 [1]
        = Woollahra.retryLoop outcomes 3 1 2 2 [1, 2] := by
      simpa using Woollahra.retryLoop_403_step outcomes 3 1 1 1 [1] r1 h1 hs1
        (by norm_num)
    have e3 : Woollahra.retryLoop outcomes 3 1 2 2 [1, 2]
        = ⟨3, [1, 2], .ok r2⟩ := by
      simpa using Woollahra.retryLoop_200_immediate outcomes 3 0 2 2 [1, 2] r2
        h2 hs2
    rw [e1, e2, e3]
  · exact fun outcomes maxR rem att reqs sleeps r h hs =>
      Woollahra.retryLoop_200_immediate outcomes maxR rem att reqs sleeps r h hs

/-- Witness for C2 at a concrete outcome sequence 403, 403, 200. -/
theorem C2_witness :
    ((fun n => if n < 2 then Woollahra.HttpOutcome.resp ⟨403, ⟨none, false⟩⟩
        else Woollahra.HttpOutcome.resp ⟨200, ⟨none, false⟩⟩) 0
      = Woollahra.HttpOutcome.resp ⟨403, ⟨none, false⟩⟩)
    ∧ ((⟨403, ⟨none, false⟩⟩ : Woollahra.Response).status_code = 403)
    ∧ ((fun n => if n < 2 then Woollahra.HttpOutcome.resp ⟨403, ⟨none, false⟩⟩
        else Woollahra.HttpOutcome.resp ⟨200, ⟨none, false⟩⟩) 2
      = Woollahra.HttpOutcome.resp ⟨200, ⟨none, false⟩⟩)
    ∧ ((⟨200, ⟨none, false⟩⟩ : Woollahra.Response).status_code = 200)
    ∧ Woollahra.make_request_with_retry
        (fun n => if n < 2 then Woollahra.HttpOutcome.resp ⟨403, ⟨none, false⟩⟩
          else Woollahra.HttpOutcome.resp ⟨200, ⟨none, false⟩⟩) 3
      = ⟨3, [1, 2], .ok ⟨200, ⟨none, false⟩⟩⟩ :=
  ⟨rfl, rfl, rfl, rfl,
    C2_retry_backoff_two_403_then_200.1
      (fun n => if n < 2 then Woollahra.HttpOutcome.resp ⟨403, ⟨none, false⟩⟩
        else Woollahra.HttpOutcome.resp ⟨200, ⟨none, false⟩⟩)
      ⟨403, ⟨none, false⟩⟩ ⟨403, ⟨none, false⟩⟩ ⟨200, ⟨none, false⟩⟩
      rfl rfl rfl rfl rfl rfl⟩

/-- C3: in the Woollahra retry helper, a response whose status is neither
200 nor a retryable 403 (a 403 on the final attempt included) raises
immediately with a message carrying the status code and the 1-based
attempt number, performing no further request; and a loop that completes
without returning or raising raises "Max retries exceeded". -/
theorem C3_retry_fail_fast_and_exhaustion :
    (∀ (outcomes : Nat → Woollahra.HttpOutcome)
       (maxR rem att reqs : Nat) (sleeps : List Nat) (r : Woollahra.Response),
       outcomes att = .resp r → r.status_code ≠ 200 →
       ¬(r.status_code = 403 ∧ att < maxR - 1) →
       Woollahra.retryLoop outcomes maxR (rem + 1) att reqs sleeps
         = ⟨reqs + 1, sleeps,
            .error ("Failed to fetch: " ++ toString r.status_code
              ++ " (attempt " ++ toString (att + 1) ++ ")")⟩)
    ∧ (∀ (outcomes : Nat → Woollahra.HttpOutcome)
         (maxR att reqs : Nat) (sleeps : List Nat),
         Woollahra.retryLoop outcomes maxR 0 att reqs sleeps
           = ⟨reqs, sleeps, .error "Max retries exceeded while fetching URL"⟩)
    ∧ (∀ (outcomes : Nat → Woollahra.HttpOutcome),
         Woollahra.make_request_with_retry outcomes 0
           = ⟨0, [], .error "Max retries exceeded while fetching URL"⟩) := by
  refine ⟨?_, fun outcomes maxR att reqs sleeps => rfl, fun outcomes => rfl⟩
  intro outcomes maxR rem att reqs sleeps r h hne hnot
  have h1 : ¬((r.status_code == 200) = true) := by simp [hne]
  have h2 : ¬((r.status_code == 403 && decide (att < maxR - 1)) = true) := by
    simp only [Bool.and_eq_true, beq_iff_eq, decide_eq_true_eq]
    exact hnot
  simp only [Woollahra.retryLoop, h]
  rw [if_neg h1, if_neg h2]

/-- Witness for C3: a 500 on the first of three attempts fails at once
with the status and attempt number in the message. -/
theorem C3_witness :
    ((fun _ => Woollahra.HttpOutcome.resp ⟨500, ⟨none, false⟩⟩) 0
      = Woollahra.HttpOutcome.resp ⟨500, ⟨none, false⟩⟩)
    ∧ ((⟨500, ⟨none, false⟩⟩ : Woollahra.Response).status_code ≠ 200)
    ∧ ¬((⟨500, ⟨none, false⟩⟩ : Woollahra.Response).status_code = 403 ∧ 0 < 3 - 1)
    ∧ Woollahra.retryLoop
        (fun _ => Woollahra.HttpOutcome.resp ⟨500, ⟨none, false⟩⟩) 3 3 0 0 []
      = ⟨1, [], .error "Failed to fetch: 500 (attempt 1)"⟩ :=
  ⟨rfl, by decide, by decide,
    C3_retry_fail_fast_and_exhaustion.1
      (fun _ => Woollahra.HttpOutcome.resp ⟨500, ⟨none, false⟩⟩) 3 2 0 0 []
      ⟨500, ⟨none, false⟩⟩ rfl (by decide) (by decide)⟩

/-- C6: a Woollahra result block whose next-service text fails to parse
as a date is dropped silently — the output over any surrounding blocks is
exactly the output over the other blocks, in document order. -/
theorem C6_unparseable_date_block_skipped
    (pre post : List Woollahra.ResultBlock) (b : Woollahra.ResultBlock)
    (h s : String) (hh : b.heading = some h) (hn : b.nextService = some s)
    (hp : Woollahra.parse_date (pyStrip s) = none) :
    Woollahra.processServices (pre ++ b :: post)
      = Woollahra.processServices pre ++ Woollahra.processServices post := by
  rw [show pre ++ b :: post = pre ++ [b] ++ post by simp]
  rw [Woollahra.processServices_append, Woollahra.processServices_append]
  simp [Woollahra.processServices, hh, hn, hp]

/-- Witness for C6: the middle block's text `"not a date"` is dropped;
the two surrounding blocks are still emitted in order. -/
theorem C6_witness :
    (⟨some "Green Waste", some "not a date"⟩ : Woollahra.ResultBlock).heading
      = some "Green Waste"
    ∧ (⟨some "Green Waste", some "not a date"⟩ :
        Woollahra.ResultBlock).nextService = some "not a date"
    ∧ Woollahra.parse_date (pyStrip "not a date") = none
    ∧ Woollahra.processServices
        [⟨some "General Waste", some "10/03/2025"⟩,
         ⟨some "Green Waste", some "not a date"⟩,
         ⟨some "Recycling", some "11/03/2025"⟩]
      = Woollahra.processServices [⟨some "General Waste", some "10/03/2025"⟩]
        ++ Woollahra.processServices [⟨some "Recycling", some "11/03/2025"⟩]
    ∧ Woollahra.processServices
        [⟨some "General Waste", some "10/03/2025"⟩,
         ⟨some "Green Waste", some "not a date"⟩,
         ⟨some "Recycling", some "11/03/2025"⟩]
      = [⟨⟨2025, 3, 10⟩, "General Waste", some "mdi:trash-can"⟩,
         ⟨⟨2025, 3, 11⟩, "Recycling", some "mdi:recycle"⟩] :=
  ⟨rfl, rfl, rfl,
    C6_unparseable_date_block_skipped
      [⟨some "General Waste", some "10/03/2025"⟩]
      [⟨some "Recycling", some "11/03/2025"⟩]
      ⟨some "Green Waste", some "not a date"⟩
      "Green Waste" "not a date" rfl rfl rfl,
    rfl⟩

/-- C7: a Woollahra block whose heading contains (case-insensitively) a
season word and "clean" is emitted with one of the canonical
`{Season} Clean-Up` labels and the clean-up icon; in particular
`"Spring Clean Up Service"` with next-service text `"15/03/2025"` yields
one collection typed `"Spring Clean-Up"` dated 2025-03-15. -/
theorem C7_seasonal_cleanup_normalization :
    Woollahra.processServices
        [⟨some "Spring Clean Up Service", some "15/03/2025"⟩]
      = [⟨⟨2025, 3, 15⟩, "Spring Clean-Up", some "mdi:delete-sweep"⟩]
    ∧ ∀ (b : Woollahra.ResultBlock) (h s : String) (d : Date),
        b.heading = some h → b.nextService = some s →
        Woollahra.parse_date (pyStrip s) = some d →
        (containsSub "spring".toList (lowerChars (pyStrip h).toList) = true
         ∨ containsSub "summer".toList (lowerChars (pyStrip h).toList) = true
         ∨ containsSub "winter".toList (lowerChars (pyStrip h).toList) = true) →
        containsSub "clean".toList (lowerChars (pyStrip h).toList) = true →
        ∃ wt, Woollahra.processServices [b]
            = [⟨d, wt, some Woollahra.CLEANUP_ICON⟩]
          ∧ (wt = "Spring Clean-Up" ∨ wt = "Summer Clean-Up"
             ∨ wt = "Winter Clean-Up") := by
  refine ⟨rfl, ?_⟩
  intro b h s d hh hn hp hseason hclean
  have hnwt : Woollahra.normalizeWasteType (pyStrip h) = "Spring Clean-Up"
      ∨ Woollahra.normalizeWasteType (pyStrip h) = "Summer Clean-Up"
      ∨ Woollahra.normalizeWasteType (pyStrip h) = "Winter Clean-Up" := by
    by_cases c1 :
        containsSub "spring".toList (lowerChars (pyStrip h).toList) = true
    · left
      unfold Woollahra.normalizeWasteType
      rw [if_pos (Bool.and_eq_true_iff.mpr ⟨c1, hclean⟩)]
    · by_cases c2 :
          containsSub "summer".toList (lowerChars (pyStrip h).toList) = true
      · right; left
        unfold Woollahra.normalizeWasteType
        rw [if_neg (fun hc => c1 (Bool.and_eq_true_iff.mp hc).1),
          if_pos (Bool.and_eq_true_iff.mpr ⟨c2, hclean⟩)]
      · have c3 :
            containsSub "winter".toList (lowerChars (pyStrip h).toList) = true := by
          rcases hseason with hx | hx | hx
          · exact absurd hx c1
          · exact absurd hx c2
          · exact hx
        right; right
        unfold Woollahra.normalizeWasteType
        rw [if_neg (fun hc => c1 (Bool.and_eq_true_iff.mp hc).1),
          if_neg (fun hc => c2 (Bool.and_eq_true_iff.mp hc).1),
          if_pos (Bool.and_eq_true_iff.mpr ⟨c3, hclean⟩)]
  have hicon : Woollahra.ICON_MAP (Woollahra.normalizeWasteType (pyStrip h))
      = some Woollahra.CLEANUP_ICON := by
    rcases hnwt with hx | hx | hx <;> rw [hx] <;> rfl
  refine ⟨Woollahra.normalizeWasteType (pyStrip h), ?_, hnwt⟩
  simp [Woollahra.processServices, hh, hn, hp, hicon, Woollahra.CLEANUP_ICON]

/-- Witness for C7 at the claim's concrete block. -/
theorem C7_witness :
    (⟨some "Spring Clean Up Service", some "15/03/2025"⟩ :
        Woollahra.ResultBlock).heading = some "Spring Clean Up Service"
    ∧ Woollahra.parse_date (pyStrip "15/03/2025") = some ⟨2025, 3, 15⟩
    ∧ containsSub "spring".toList
        (lowerChars (pyStrip "Spring Clean Up Service").toList) = true
    ∧ containsSub "clean".toList
        (lowerChars (pyStrip "Spring Clean Up Service").toList) = true
    ∧ ∃ wt, Woollahra.processServices
          [⟨some "Spring Clean Up Service", some "15/03/2025"⟩]
        = [⟨⟨2025, 3, 15⟩, wt, some Woollahra.CLEANUP_ICON⟩]
      ∧ (wt = "Spring Clean-Up" ∨ wt = "Summer Clean-Up"
         ∨ wt = "Winter Clean-Up") :=
  ⟨rfl, rfl, rfl, rfl,
    C7_seasonal_cleanup_normalization.2
      ⟨some "Spring Clean Up Service", some "15/03/2025"⟩
      "Spring Clean Up Service" "15/03/2025" ⟨2025, 3, 15⟩
      rfl rfl rfl (Or.inl rfl) rfl⟩

/-- C10: the Woollahra retry helper only ever returns a status-200
response, so the two `status_code != 200` checks that follow its calls
in `fetch` are dead branches: no `fetch` run ever enters them (the
`deadBranch` flag of the trace is set exactly in those two branches). -/
theorem C10_retry_helper_returns_only_200 :
    (∀ (outcomes : Nat → Woollahra.HttpOutcome) (maxR : Nat)
       (r : Woollahra.Response),
       (Woollahra.make_request_with_retry outcomes maxR).result = .ok r →
       r.status_code = 200)
    ∧ ∀ (address : String) (env : Woollahra.WEnv)
        (findAll : String → List Woollahra.ResultBlock),
        (Woollahra.fetch address env findAll).deadBranch = false := by
  constructor
  · exact fun outcomes maxR r h =>
      Woollahra.make_request_ok_status outcomes maxR r h
  · intro address env findAll
    cases hs : (Woollahra.make_request_with_retry env.search 3).result with
    | error e => simp [Woollahra.fetch, hs]
    | ok r =>
      have h200 := Woollahra.make_request_ok_status env.search 3 r hs
      cases hp : Woollahra.parseJsonBody r.body
          "Access denied by Woollahra website. This may be due to bot protection measures. Please try again later."
          "Invalid JSON response from address search API" with
      | error e => simp [Woollahra.fetch, hs, hp, h200]
      | ok data =>
        cases hg : Woollahra.getLocationId data with
        | error e => simp [Woollahra.fetch, hs, hp, hg, h200]
        | ok locOpt =>
          by_cases ht : Woollahra.optTruthy locOpt = true
          · simp [Woollahra.fetch, hs, hp, hg, h200, ht,
              Woollahra.collectionPhase_not_dead env findAll]
          · simp [Woollahra.fetch, hs, hp, hg, h200, ht]

/-- Witness for C10: a first-attempt 200 response is returned by the
helper and carries status 200. -/
theorem C10_witness :
    (Woollahra.make_request_with_retry
        (fun _ => Woollahra.HttpOutcome.resp ⟨200, ⟨none, false⟩⟩) 3).result
      = .ok ⟨200, ⟨none, false⟩⟩
    ∧ (⟨200, ⟨none, false⟩⟩ : Woollahra.Response).status_code = 200 :=
  ⟨rfl,
    C10_retry_helper_returns_only_200.1
      (fun _ => Woollahra.HttpOutcome.resp ⟨200, ⟨none, false⟩⟩) 3
      ⟨200, ⟨none, false⟩⟩ rfl⟩

/-- C4 counterexample: an address-search response whose body parses as
JSON to the top-level array `[]` — valid JSON with `Items` missing — makes
`fetch` raise `AttributeError` (a Python `list` has no `.get`), not the
address-resolution error naming the stored address, contrary to the claim
read over all JSON-parseable responses. -/
theorem C4_counterexample :
    Woollahra.fetch "13 Paddington Street PADDINGTON NSW 2021"
        (Woollahra.constSearchEnv ⟨some (.arr []), false⟩) Woollahra.noBlocks
      = ⟨false, false, .error "AttributeError: object has no attribute get"⟩
    ∧ "AttributeError: object has no attribute get"
      ≠ "Unable to find location ID for 13 Paddington Street PADDINGTON NSW 2021. Please check your address details are correct." :=
  ⟨rfl, by decide⟩

/-- C4 (amended to JSON-object responses): for every address-search
response returning 200 whose body parses as a JSON object with `Items`
missing, falsy (the empty array included), or whose first item carries a
falsy `Id`, `fetch` raises the address-resolution `ValueError` naming the
stored input address, and the collection-schedule endpoint is never
requested. -/
theorem C4_address_error_and_no_collection_request
    (address : String) (env : Woollahra.WEnv)
    (findAll : String → List Woollahra.ResultBlock)
    (r : Woollahra.Response) (fields : List (String × JVal))
    (hsearch : (Woollahra.make_request_with_retry env.search 3).result = .ok r)
    (hjson : r.body.json = some (.obj fields))
    (hitems : fields.lookup "Items" = none
      ∨ (∃ v, fields.lookup "Items" = some v ∧ v.truthy = false)
      ∨ (∃ f rest v, fields.lookup "Items" = some (.arr (.obj f :: rest))
          ∧ f.lookup "Id" = some v ∧ v.truthy = false)) :
    Woollahra.fetch address env findAll
      = ⟨false, false, .error ("Unable to find location ID for " ++ address
          ++ ". Please check your address details are correct.")⟩ := by
  have h200 := Woollahra.make_request_ok_status env.search 3 r hsearch
  have hpj : Woollahra.parseJsonBody r.body
      "Access denied by Woollahra website. This may be due to bot protection measures. Please try again later."
      "Invalid JSON response from address search API" = .ok (.obj fields) := by
    simp [Woollahra.parseJsonBody, hjson]
  have hloc : ∃ locOpt, Woollahra.getLocationId (.obj fields) = .ok locOpt
      ∧ Woollahra.optTruthy locOpt = false := by
    rcases hitems with hnone | ⟨v, hv, hvf⟩ | ⟨f, rest, v, hv, hid, hvf⟩
    · exact ⟨none,
        by simp [Woollahra.getLocationId, Woollahra.pyGet, hnone], rfl⟩
    · refine ⟨none, ?_, rfl⟩
      simp [Woollahra.getLocationId, Woollahra.pyGet, hv, hvf]
    · refine ⟨some v, ?_, by simp [Woollahra.optTruthy, hvf]⟩
      simp [Woollahra.getLocationId, Woollahra.pyGet, hv, hid, JVal.truthy]
  obtain ⟨locOpt, hget, hfalse⟩ := hloc
  simp [Woollahra.fetch, hsearch, h200, hpj, hget, hfalse]

/-- Witness for the amended C4 at a JSON object with an empty `Items`
array. -/
theorem C4_witness :
    (Woollahra.make_request_with_retry
        (Woollahra.constSearchEnv
          ⟨some (.obj [("Items", .arr [])]), false⟩).search 3).result
      = .ok ⟨200, ⟨some (.obj [("Items", .arr [])]), false⟩⟩
    ∧ (⟨200, ⟨some (.obj [("Items", .arr [])]), false⟩⟩ :
        Woollahra.Response).body.json = some (.obj [("Items", .arr [])])
    ∧ ([("Items", JVal.arr [])].lookup "Items" = some (.arr [])
        ∧ (JVal.arr []).truthy = false)
    ∧ Woollahra.fetch "13 Paddington Street PADDINGTON NSW 2021"
        (Woollahra.constSearchEnv ⟨some (.obj [("Items", .arr [])]), false⟩)
        Woollahra.noBlocks
      = ⟨false, false,
         .error ("Unable to find location ID for "
           ++ "13 Paddington Street PADDINGTON NSW 2021"
           ++ ". Please check your address details are correct.")⟩ :=
  ⟨rfl, rfl, ⟨rfl, rfl⟩,
    C4_address_error_and_no_collection_request
      "13 Paddington Street PADDINGTON NSW 2021"
      (Woollahra.constSearchEnv ⟨some (.obj [("Items", .arr [])]), false⟩)
      Woollahra.noBlocks
      ⟨200, ⟨some (.obj [("Items", .arr [])]), false⟩⟩
      [("Items", JVal.arr [])]
      rfl rfl
      (Or.inr (Or.inl ⟨.arr [], rfl, rfl⟩))⟩
